import Mathlib

/-!
Shallow embedding of the AI-Chatbot repository.

`app.py` exposes a Flask route `POST /chat` whose handler `chat` reads the
JSON body, extracts and strips the `"message"` field, short-circuits on an
empty message, and otherwise issues a single Groq chat-completion call whose
first choice's content becomes the reply; any exception raised inside the
`try` block is converted into an `Error: ...` reply.

`test_openai.py` is a one-shot probe script: it tries the OpenAI Responses
API on four model names in a loop, then one Chat Completions call on a fixed
model, printing diagnostics for every failure.

External collaborators (Flask's JSON parsing, the Groq/OpenAI clients,
`json.loads`, message `repr`s) are modelled as explicit inputs: the provider
is a function from the request the handler builds to an outcome, so theorems
quantify over every possible provider behaviour.
-/

set_option autoImplicit false

/-- JSON values, as Flask's `request.get_json()` hands them to the handler
(a parsed Python object: `dict`, `list`, `str`, number, `bool`, `None`). -/
inductive Json where
  | null
  | bool (b : Bool)
  | num (n : Int)
  | str (s : String)
  | arr (elems : List Json)
  | obj (fields : List (String × Json))

/-- Python truthiness of a JSON-derived value, used by `request.get_json() or` in
`app.py` line 23: `None`, `False`, `0`, `""`, `[]` and the empty dict are falsy. -/
def Json.isTruthy : Json → Bool
  | .null => false
  | .bool b => b
  | .num n => n != 0
  | .str s => s != ""
  | .arr elems => !elems.isEmpty
  | .obj fields => !fields.isEmpty

/-- The whitespace set of Python's `str.strip()` with no argument: the
characters for which `str.isspace()` is true — the ASCII whitespace
`\t \n \x0b \x0c \r` and space, the file/group/record/unit separators
`\x1c`-`\x1f`, next line `\x85`, no-break space `\xa0`, Ogham space mark
` `, the en-quad..hair-space range ` `-` `, line separator
` `, paragraph separator ` `, narrow no-break space ` `,
medium mathematical space ` `, and ideographic space `　`. -/
def pyIsSpace (c : Char) : Bool :=
  c = ' ' || c = '\t' || c = '\n' || c = '\r' || c = '\x0b' || c = '\x0c' ||
  c = '\x1c' || c = '\x1d' || c = '\x1e' || c = '\x1f' ||
  c = '\x85' || c = '\xa0' || c = '\u1680' ||
  ('\u2000' ≤ c && c ≤ '\u200a') ||
  c = '\u2028' || c = '\u2029' || c = '\u202f' || c = '\u205f' || c = '\u3000'

/-- Python `s.strip()`: remove leading and trailing whitespace. -/
def pyStrip (s : String) : String :=
  String.mk (((s.toList.dropWhile pyIsSpace).reverse.dropWhile pyIsSpace).reverse)

/-- One role-tagged message turn of a chat-completion request
(`app.py` lines 33-35, `test_openai.py` line 52). -/
structure ChatMessage where
  role : String
  content : String
  deriving DecidableEq

/-- The argument record of `client.chat.completions.create` as the code builds it
(`app.py` lines 31-37; `test_openai.py` lines 50-54). -/
structure ProviderRequest where
  model : String
  messages : List ChatMessage
  max_tokens : Nat
  deriving DecidableEq

/-- The `message` object of one returned choice; `content` is what
`choices[0].message.content` reads (`app.py` line 40). -/
structure ChoiceMessage where
  content : String
  deriving DecidableEq

/-- One candidate completion of a provider response. -/
structure Choice where
  message : ChoiceMessage
  deriving DecidableEq

/-- A successfully returned provider response object: an ordered list of choices. -/
structure ProviderResponse where
  choices : List Choice
  deriving DecidableEq

/-- The outcome of the outbound `client.chat.completions.create` call: either a
response object, or a raised exception carrying its string form `str(e)`. -/
inductive ProviderResult where
  | success (resp : ProviderResponse)
  | raise (msg : String)
  deriving DecidableEq

/-- What the `chat` handler produces: `reply text` models
`jsonify(\x7b"reply": text\x7d)` (HTTP 200), while `serverError name` models an
uncaught Python exception of type `name` escaping the handler, which Flask turns
into an error page rather than a JSON reply. -/
inductive ChatResponse where
  | reply (text : String)
  | serverError (excType : String)
  deriving DecidableEq

/-- The HTTP status of a handler result: `jsonify` responses are 200; an
uncaught exception never yields a 2xx (Flask produces a 500 error page). -/
def httpStatus : ChatResponse → Nat
  | .reply _ => 200
  | .serverError _ => 500

/-- A handler run: the response together with the list of outbound provider
calls it issued, in order. -/
structure ChatOutcome where
  response : ChatResponse
  calls : List ProviderRequest
  deriving DecidableEq

/-- The fixed system prompt (`app.py` line 33). -/
def systemPrompt : String := "You are a helpful AI assistant."

/-- The fixed model identifier (`app.py` line 32). -/
def modelId : String := "llama-3.1-8b-instant"

/-- The single chat-completion request `chat` builds for a (stripped) user
message (`app.py` lines 31-37): fixed model, fixed system turn, the user turn,
`max_tokens=500`. -/
def mkProviderRequest (user_msg : String) : ProviderRequest :=
  { model := modelId
    messages := [⟨"system", systemPrompt⟩, ⟨"user", user_msg⟩]
    max_tokens := 500 }

/-- `data.get("message", "").strip()` (`app.py` line 24).  `dict.get` returns the
value stored under `"message"`, or the default `""` when the key is absent.
`.strip()` succeeds only on a string: if the stored value is `None` (JSON null)
or any other non-string, Python raises `AttributeError` (no `strip` attribute);
likewise `.get` on a non-dict raises `AttributeError`.  That line sits before
the `try` block, so such an exception escapes the handler. -/
def getStrippedMessage (data : Json) : Except String String :=
  match data with
  | .obj fields =>
    match fields.lookup "message" with
    | none => .ok (pyStrip "")
    | some (.str s) => .ok (pyStrip s)
    | some _ => .error "AttributeError"
  | _ => .error "AttributeError"

/-- The body of the `chat` handler after `data` is fixed (`app.py` lines 24-44).
The empty-choices case is Python's `response.choices[0]` raising
`IndexError("list index out of range")`, caught by the same
`except Exception` as a failed call and rendered as an `Error: ` reply. -/
def chatCore (data : Json) (provider : ProviderRequest → ProviderResult) : ChatOutcome :=
  match getStrippedMessage data with
  | .error excType => { response := .serverError excType, calls := [] }
  | .ok user_msg =>
    if user_msg = "" then
      { response := .reply "Please type something!", calls := [] }
    else
      let req := mkProviderRequest user_msg
      match provider req with
      | .raise msg => { response := .reply ("Error: " ++ msg), calls := [req] }
      | .success resp =>
        match resp.choices with
        | [] =>
          { response := .reply ("Error: " ++ "list index out of range"), calls := [req] }
        | c :: _ => { response := .reply c.message.content, calls := [req] }

/-- The `chat` handler (`app.py` lines 22-44).  `body` is what
`request.get_json()` produced: `none` when the parser yielded no object
(Python `None`); line 23's `or \x7b\x7d` replaces any falsy value by the empty
dict.  `provider` is the Groq client's behaviour on the request the handler
builds. -/
def chat (body : Option Json) (provider : ProviderRequest → ProviderResult) : ChatOutcome :=
  let data := match body with
    | some j => if j.isTruthy then j else Json.obj []
    | none => Json.obj []
  chatCore data provider

/-- Flask routing targets for this app: the index page handler, the `chat`
handler, a 405 method-not-allowed rejection, or a 404. -/
inductive RouteTarget where
  | indexPage
  | chatHandler
  | methodNotAllowed
  | notFound
  deriving DecidableEq

/-- The app's route table (`app.py` lines 16 and 21): `/` accepts GET (the
Flask default) and `/chat` accepts only POST (`methods=["POST"]`); any other
method on a known path is rejected without invoking the handler. -/
def dispatch (path method : String) : RouteTarget :=
  if path = "/" then
    if method = "GET" then .indexPage else .methodNotAllowed
  else if path = "/chat" then
    if method = "POST" then .chatHandler else .methodNotAllowed
  else .notFound

/-! ### The probe script `test_openai.py` -/

/-- The argument record of `client.responses.create` as `try_responses` builds
it (`test_openai.py` lines 16-21). -/
structure RespRequest where
  model : String
  instructions : String
  input : String
  max_output_tokens : Nat
  deriving DecidableEq

/-- An exception raised by an OpenAI client call, as the probe script inspects
it: its type name (`type(e).__name__`), string form (`str(e)`), the optional
`http_body` and `body` attributes (absent attribute = `none`), and the `args`
tuple. -/
structure ProbeExc where
  typeName : String
  strForm : String
  http_body : Option String
  body : Option String
  args : List String
  deriving DecidableEq

/-- One observable event of a probe-script run: a printed line, an outbound
Responses-API call attempt, an outbound chat-completions call attempt, or
`traceback.print_exc()`. -/
inductive Event where
  | print (line : String)
  | respCall (req : RespRequest)
  | chatCall (req : ProviderRequest)
  | traceback
  deriving DecidableEq

/-- Whether an event is an outbound provider call attempt. -/
def Event.isCall : Event → Bool
  | .respCall _ => true
  | .chatCall _ => true
  | _ => false

/-- The outcome of a `client.responses.create` call: a response object (with
its optional `output_text` attribute, read by `getattr`, and its printed
representation), or a raised exception. -/
inductive RespOutcome where
  | ok (output_text : Option String) (reprStr : String)
  | raise (e : ProbeExc)

/-- The outcome of the probe's `client.chat.completions.create` call. -/
inductive ChatCallOutcome where
  | ok (resp : ProviderResponse)
  | raise (e : ProbeExc)

/-- How Python's `print` renders the value bound by
`getattr(resp, "output_text", None)`. -/
def pyOptRepr : Option String → String
  | none => "None"
  | some s => s

/-- Python truthiness of an optional string attribute: `None` and `""` are
falsy. -/
def truthyStr : Option String → Option String
  | some s => if s = "" then none else some s
  | none => none

/-- Python `a or b` on the two optional attributes
(`getattr(e, "http_body", None) or getattr(e, "body", None)`,
`test_openai.py` line 32). -/
def pyOr (a b : Option String) : Option String :=
  match truthyStr a with
  | some s => some s
  | none => b

/-- The `for a in e.args` loop (`test_openai.py` lines 37-43): try
`json.loads(a)` on each argument; on the first success print the re-dumped
JSON and `break`; a parse failure is caught by the inner
`except Exception: pass` and the loop continues.  `jsonLoads` models
`json.dumps(json.loads(a), indent=2)` : `none` means `json.loads` raised. -/
def argsJsonLines (jsonLoads : String → Option String) : List String → List String
  | [] => []
  | a :: rest =>
    match jsonLoads a with
    | some dumped => ["Parsed JSON from args: " ++ dumped]
    | none => argsJsonLines jsonLoads rest

/-- The diagnostic-extraction block inside `try_responses`'s `except`
(`test_openai.py` lines 30-44): print the exception's HTTP body attribute when
truthy, then any JSON-parseable argument payload.  The whole block is wrapped
in `try ... except Exception: pass`, so it can only print lines; it never
changes control flow. -/
def diagExtract (jsonLoads : String → Option String) (e : ProbeExc) : List String :=
  (match truthyStr (pyOr e.http_body e.body) with
   | some b => ["HTTP/body from exception: " ++ b]
   | none => []) ++
  (if e.args.isEmpty then [] else argsJsonLines jsonLoads e.args)

/-- The Responses-API request `try_responses` sends for a model name
(`test_openai.py` lines 16-21). -/
def mkRespRequest (model : String) : RespRequest :=
  { model := model
    instructions := "You are a helpful assistant."
    input := "Hello, test."
    max_output_tokens := 50 }

/-- `try_responses(model)` (`test_openai.py` lines 13-46), parameterised by the
behaviour `diag` of the nested diagnostic-extraction block: that block only
prints (its failures are swallowed by `except Exception: pass`), so it is any
function from the exception to a list of printed lines; the real behaviour is
`diagExtract jsonLoads`.  `oracle` is the Responses-API behaviour per model. -/
def try_responsesWith (diag : ProbeExc → List String)
    (oracle : String → RespOutcome) (model : String) : List Event :=
  Event.print ("\n--- Trying Responses API with model: " ++ model) ::
  Event.respCall (mkRespRequest model) ::
  (match oracle model with
   | .ok text reprStr =>
     [.print ("OK. output_text: " ++ pyOptRepr text),
      .print ("Full resp object: " ++ reprStr)]
   | .raise e =>
     .print ("Exception type: " ++ e.typeName) ::
     .print ("Exception str: " ++ e.strForm) ::
     ((diag e).map Event.print ++ [Event.traceback]))

/-- `try_responses(model)` with the diagnostic-extraction block as written in
the source. -/
def try_responses (jsonLoads : String → Option String)
    (oracle : String → RespOutcome) (model : String) : List Event :=
  try_responsesWith (diagExtract jsonLoads) oracle model

/-- The chat-completions request `try_chat_completion` sends
(`test_openai.py` lines 50-54). -/
def mkProbeChatRequest (model : String) : ProviderRequest :=
  { model := model
    messages := [⟨"user", "Hello test."⟩]
    max_tokens := 50 }

/-- `try_chat_completion(model)` (`test_openai.py` lines 48-61).  On success it
prints `resp.choices[0].message`; with an empty choices list that subscript
raises `IndexError` inside the `try`, so the `except` branch prints instead.
Its `except` prints only the type name, string form and a stack trace — it has
no HTTP-body or JSON-args extraction.  `reprMsg` models how Python prints a
message object. -/
def try_chat_completion (reprMsg : ChoiceMessage → String)
    (oracle : String → ChatCallOutcome) (model : String) : List Event :=
  Event.print ("\n--- Trying Chat Completions API with model: " ++ model) ::
  Event.chatCall (mkProbeChatRequest model) ::
  (match oracle model with
   | .ok resp =>
     match resp.choices with
     | [] =>
       [.print ("Exception type: " ++ "IndexError"),
        .print ("Exception str: " ++ "list index out of range"),
        Event.traceback]
     | c :: _ => [.print ("OK. choices[0].message: " ++ reprMsg c.message)]
   | .raise e =>
     [.print ("Exception type: " ++ e.typeName),
      .print ("Exception str: " ++ e.strForm),
      Event.traceback])

/-- The four model identifiers the `__main__` loop tries
(`test_openai.py` line 64). -/
def probeModels : List String :=
  ["gpt-4o", "gpt-4o-mini", "gpt-3.5-turbo", "gpt-4o-mini-tts"]

/-- The `__main__` block (`test_openai.py` lines 62-69), parameterised like
`try_responsesWith`: the Responses-API loop over the four models, then the
single chat-completions fallback on `"gpt-3.5-turbo"`, then the final print.
(The import-time `OPENAI_API_KEY visible:` print precedes this block and is
omitted: no claim concerns it.) -/
def probeMainWith (diag : ProbeExc → List String)
    (respOracle : String → RespOutcome)
    (reprMsg : ChoiceMessage → String)
    (chatOracle : String → ChatCallOutcome) : List Event :=
  probeModels.flatMap (try_responsesWith diag respOracle) ++
  try_chat_completion reprMsg chatOracle "gpt-3.5-turbo" ++
  [Event.print "\nFinished tests."]

/-- The `__main__` block with the diagnostic extraction as written. -/
def probeMain (jsonLoads : String → Option String)
    (respOracle : String → RespOutcome)
    (reprMsg : ChoiceMessage → String)
    (chatOracle : String → ChatCallOutcome) : List Event :=
  probeMainWith (diagExtract jsonLoads) respOracle reprMsg chatOracle

/-- A concrete SDK-style exception carrying an HTTP body attribute, used to
compare the two probe functions' failure diagnostics. -/
def excWithBody : ProbeExc :=
  { typeName := "APIError"
    strForm := "boom"
    http_body := some "deets"
    body := none
    args := [] }

/-! ### Helper lemmas -/

/-- Replacing a falsy body by the empty dict is invisible for object bodies:
the empty dict is the only falsy object, so the handler behaves as `chatCore`
on the object itself. -/
theorem chat_obj_eq_chatCore (fields : List (String × Json))
    (provider : ProviderRequest → ProviderResult) :
    chat (some (.obj fields)) provider = chatCore (.obj fields) provider := by
  cases fields <;> rfl

/-- On a singleton body whose `message` value is the string `s`, the stripped
message the handler works with is `pyStrip s`. -/
theorem getStrippedMessage_singleton (s : String) :
    getStrippedMessage (.obj [("message", .str s)]) = .ok (pyStrip s) := by
  simp [getStrippedMessage, List.lookup]

/-- `getStrippedMessage` on an object body, expressed through the dict
lookup. -/
theorem getStrippedMessage_obj (fields : List (String × Json)) :
    getStrippedMessage (.obj fields) =
      match fields.lookup "message" with
      | none => .ok (pyStrip "")
      | some (.str s) => .ok (pyStrip s)
      | some _ => .error "AttributeError" := rfl

/-- On a non-empty stripped message the handler reaches the provider call with
the request built from the stripped message, whatever the provider then does. -/
theorem chatCore_nonempty (data : Json) (s : String)
    (provider : ProviderRequest → ProviderResult)
    (hget : getStrippedMessage data = .ok s) (hs : s ≠ "") :
    chatCore data provider =
      match provider (mkProviderRequest s) with
      | .raise msg =>
        { response := .reply ("Error: " ++ msg), calls := [mkProviderRequest s] }
      | .success resp =>
        match resp.choices with
        | [] =>
          { response := .reply ("Error: " ++ "list index out of range"),
            calls := [mkProviderRequest s] }
        | c :: _ =>
          { response := .reply c.message.content, calls := [mkProviderRequest s] } := by
  unfold chatCore
  rw [hget]
  simp [hs]

/-- Whatever the provider does on a non-empty stripped message, the handler
issues exactly that one call. -/
theorem chatCore_calls (data : Json) (s : String)
    (provider : ProviderRequest → ProviderResult)
    (hget : getStrippedMessage data = .ok s) (hs : s ≠ "") :
    (chatCore data provider).calls = [mkProviderRequest s] := by
  rw [chatCore_nonempty data s provider hget hs]
  cases hp : provider (mkProviderRequest s) with
  | raise msg => rfl
  | success resp =>
    cases resp with
    | mk choices => cases choices <;> rfl

/-- The diagnostic-extraction block only prints lines, so it contributes no
outbound call events. -/
theorem filter_isCall_map_print (lines : List String) :
    (lines.map Event.print).filter Event.isCall = [] := by
  induction lines with
  | nil => rfl
  | cons a rest ih => simp [List.filter, Event.isCall, ih]

/-- Each `try_responses` run attempts exactly one Responses-API call, whatever
the outcome and whatever the nested diagnostic block does. -/
theorem try_responsesWith_calls (diag : ProbeExc → List String)
    (oracle : String → RespOutcome) (model : String) :
    (try_responsesWith diag oracle model).filter Event.isCall =
      [.respCall (mkRespRequest model)] := by
  unfold try_responsesWith
  cases oracle model with
  | ok text reprStr => rfl
  | raise e =>
    simp [List.filter_cons, List.filter_append, Event.isCall,
      filter_isCall_map_print]

/-- Each `try_chat_completion` run attempts exactly one chat-completions call,
whatever the outcome. -/
theorem try_chat_completion_calls (reprMsg : ChoiceMessage → String)
    (oracle : String → ChatCallOutcome) (model : String) :
    (try_chat_completion reprMsg oracle model).filter Event.isCall =
      [.chatCall (mkProbeChatRequest model)] := by
  unfold try_chat_completion
  cases oracle model with
  | ok resp =>
    cases resp with
    | mk choices => cases choices <;> rfl
  | raise e => rfl

/-- The probe script's outbound call attempts, whatever every oracle and the
nested diagnostic block do: the four Responses-API models in order, then the
single chat-completions fallback. -/
theorem probeMainWith_calls (diag : ProbeExc → List String)
    (respOracle : String → RespOutcome) (reprMsg : ChoiceMessage → String)
    (chatOracle : String → ChatCallOutcome) :
    (probeMainWith diag respOracle reprMsg chatOracle).filter Event.isCall =
      [.respCall (mkRespRequest "gpt-4o"),
       .respCall (mkRespRequest "gpt-4o-mini"),
       .respCall (mkRespRequest "gpt-3.5-turbo"),
       .respCall (mkRespRequest "gpt-4o-mini-tts"),
       .chatCall (mkProbeChatRequest "gpt-3.5-turbo")] := by
  unfold probeMainWith probeModels
  simp [List.filter_append, List.filter_cons, try_responsesWith_calls,
    try_chat_completion_calls, Event.isCall]

/-- The probe script always reaches its final print. -/
theorem probeMainWith_getLast (diag : ProbeExc → List String)
    (respOracle : String → RespOutcome) (reprMsg : ChoiceMessage → String)
    (chatOracle : String → ChatCallOutcome) :
    (probeMainWith diag respOracle reprMsg chatOracle).getLast? =
      some (.print "\nFinished tests.") := by
  unfold probeMainWith
  simp

/-! ### Claims -/

/-- C1 (amended): a `message` field that is missing from the JSON object, or a
string that strips to empty, short-circuits to the fixed
`"Please type something!"` reply with no provider call; a JSON-null `message`
instead raises an uncaught `AttributeError` (`None.strip()`), still with no
provider call. -/
theorem C1_empty_message_short_circuits_but_null_raises :
    ∀ (fields : List (String × Json)) (provider : ProviderRequest → ProviderResult),
      ((fields.lookup "message" = none ∨
          ∃ s, fields.lookup "message" = some (.str s) ∧ pyStrip s = "") →
        chat (some (.obj fields)) provider =
          { response := .reply "Please type something!", calls := [] }) ∧
      (fields.lookup "message" = some .null →
        chat (some (.obj fields)) provider =
          { response := .serverError "AttributeError", calls := [] }) := by
  intro fields provider
  refine ⟨?_, ?_⟩
  · rintro (hnone | ⟨s, hs, hstrip⟩) <;> rw [chat_obj_eq_chatCore] <;>
      unfold chatCore <;> rw [getStrippedMessage_obj]
    · rw [hnone]
      have hempty : pyStrip "" = "" := rfl
      simp [hempty]
    · rw [hs]
      simp [hstrip]
  · intro hnull
    rw [chat_obj_eq_chatCore]
    unfold chatCore
    rw [getStrippedMessage_obj, hnull]

/-- C1 witness: a whitespace-only message and a missing message field both get
the fixed reply with no provider call. -/
theorem C1_witness :
    chat (some (.obj [("message", .str "   ")])) (fun _ => .raise "boom") =
        { response := .reply "Please type something!", calls := [] } ∧
    chat (some (.obj [("answer", .str "x")])) (fun _ => .raise "boom") =
        { response := .reply "Please type something!", calls := [] } :=
  ⟨(C1_empty_message_short_circuits_but_null_raises [("message", .str "   ")]
      (fun _ => .raise "boom")).1 (Or.inr ⟨"   ", rfl, rfl⟩),
   (C1_empty_message_short_circuits_but_null_raises [("answer", .str "x")]
      (fun _ => .raise "boom")).1 (Or.inl rfl)⟩

/-- C1 counterexample: with `message` JSON-null the handler does not return the
fixed reply (it raises `AttributeError` out of the handler). -/
theorem C1_counterexample :
    ¬ chat (some (.obj [("message", Json.null)])) (fun _ => .raise "boom") =
        { response := .reply "Please type something!", calls := [] } := by
  decide

/-- C9: when the body parser yields no object (`request.get_json()` returned
Python `None`, e.g. no usable body or the JSON literal `null`), line 23's
`or \x7b\x7d` substitutes the empty dict, so the request takes the empty-input
branch and returns the fixed reply instead of failing. -/
theorem C9_missing_or_null_body_yields_fixed_reply :
    ∀ provider : ProviderRequest → ProviderResult,
      chat none provider =
        { response := .reply "Please type something!", calls := [] } ∧
      chat (some Json.null) provider =
        { response := .reply "Please type something!", calls := [] } :=
  fun _ => ⟨rfl, rfl⟩

/-- C2: on a non-empty stripped message, any exception raised by the provider
call is caught and rendered as a 200 reply `"Error: " ++ str(e)`; it never
escapes the handler. -/
theorem C2_provider_exception_becomes_error_reply (s msg : String)
    (provider : ProviderRequest → ProviderResult)
    (hs : pyStrip s ≠ "")
    (hp : provider (mkProviderRequest (pyStrip s)) = .raise msg) :
    chat (some (.obj [("message", .str s)])) provider =
      { response := .reply ("Error: " ++ msg),
        calls := [mkProviderRequest (pyStrip s)] } ∧
    httpStatus (chat (some (.obj [("message", .str s)])) provider).response = 200 := by
  rw [chat_obj_eq_chatCore,
    chatCore_nonempty _ _ provider (getStrippedMessage_singleton s) hs, hp]
  exact ⟨rfl, rfl⟩

/-- C2 witness: message `"hi"`, provider raising `"rate limited"` — the reply
is `"Error: rate limited"` with status 200. -/
theorem C2_witness :
    chat (some (.obj [("message", .str "hi")])) (fun _ => .raise "rate limited") =
      { response := .reply "Error: rate limited",
        calls := [mkProviderRequest "hi"] } ∧
    httpStatus (chat (some (.obj [("message", .str "hi")]))
        (fun _ => .raise "rate limited")).response = 200 :=
  C2_provider_exception_becomes_error_reply "hi" "rate limited"
    (fun _ => .raise "rate limited") (by decide) rfl

/-- C3: on a non-empty stripped message and a successful provider call, the
reply is exactly the first choice's message content, unmodified. -/
theorem C3_success_returns_first_choice_verbatim (s : String)
    (provider : ProviderRequest → ProviderResult) (c : Choice) (rest : List Choice)
    (hs : pyStrip s ≠ "")
    (hp : provider (mkProviderRequest (pyStrip s)) = .success { choices := c :: rest }) :
    chat (some (.obj [("message", .str s)])) provider =
      { response := .reply c.message.content,
        calls := [mkProviderRequest (pyStrip s)] } := by
  rw [chat_obj_eq_chatCore,
    chatCore_nonempty _ _ provider (getStrippedMessage_singleton s) hs, hp]

/-- C3 witness: message `"Hello"`, stubbed provider returning one choice
`"Hi there!"` — the reply is `"Hi there!"`. -/
theorem C3_witness :
    chat (some (.obj [("message", .str "Hello")]))
        (fun _ => .success { choices := [⟨⟨"Hi there!"⟩⟩] }) =
      { response := .reply "Hi there!", calls := [mkProviderRequest "Hello"] } :=
  C3_success_returns_first_choice_verbatim "Hello"
    (fun _ => .success { choices := [⟨⟨"Hi there!"⟩⟩] }) ⟨⟨"Hi there!"⟩⟩ []
    (by decide) rfl

/-- C4: leading/trailing whitespace is stripped before the emptiness check and
before the provider call: a message stripping to empty takes the fixed-reply
branch, and otherwise the single outbound request carries exactly the stripped
message as the user turn. -/
theorem C4_whitespace_stripped_before_check_and_send (s : String)
    (provider : ProviderRequest → ProviderResult) :
    (pyStrip s = "" →
      chat (some (.obj [("message", .str s)])) provider =
        { response := .reply "Please type something!", calls := [] }) ∧
    (pyStrip s ≠ "" →
      (chat (some (.obj [("message", .str s)])) provider).calls =
        [mkProviderRequest (pyStrip s)] ∧
      (mkProviderRequest (pyStrip s)).messages =
        [⟨"system", systemPrompt⟩, ⟨"user", pyStrip s⟩]) := by
  constructor
  · intro hempty
    rw [chat_obj_eq_chatCore]
    unfold chatCore
    rw [getStrippedMessage_singleton, hempty]
    simp
  · intro hs
    refine ⟨?_, rfl⟩
    rw [chat_obj_eq_chatCore,
      chatCore_calls _ _ provider (getStrippedMessage_singleton s) hs]

/-- C4 witness: input `"   "` takes the empty-prompt branch; input `"  hi  "`
sends the provider exactly the user content `"hi"`. -/
theorem C4_witness :
    chat (some (.obj [("message", .str "   ")])) (fun _ => .raise "x") =
      { response := .reply "Please type something!", calls := [] } ∧
    (chat (some (.obj [("message", .str "  hi  ")])) (fun _ => .raise "x")).calls =
      [mkProviderRequest "hi"] :=
  ⟨(C4_whitespace_stripped_before_check_and_send "   " (fun _ => .raise "x")).1 rfl,
   ((C4_whitespace_stripped_before_check_and_send "  hi  "
      (fun _ => .raise "x")).2 (by decide)).1⟩

/-- C5: on a non-empty stripped message the handler issues exactly one
chat-completion request: fixed model `"llama-3.1-8b-instant"`, the fixed system
turn, the user turn carrying the stripped message, and `max_tokens = 500`. -/
theorem C5_single_request_fixed_shape (s : String)
    (provider : ProviderRequest → ProviderResult) (hs : pyStrip s ≠ "") :
    (chat (some (.obj [("message", .str s)])) provider).calls =
      [{ model := "llama-3.1-8b-instant"
         messages := [⟨"system", "You are a helpful AI assistant."⟩,
                      ⟨"user", pyStrip s⟩]
         max_tokens := 500 }] := by
  rw [chat_obj_eq_chatCore,
    chatCore_calls _ _ provider (getStrippedMessage_singleton s) hs]
  rfl

/-- C5 witness: message `"Hello"` produces exactly one request of the fixed
shape with user content `"Hello"`. -/
theorem C5_witness :
    (chat (some (.obj [("message", .str "Hello")]))
        (fun _ => .raise "x")).calls =
      [{ model := "llama-3.1-8b-instant"
         messages := [⟨"system", "You are a helpful AI assistant."⟩,
                      ⟨"user", "Hello"⟩]
         max_tokens := 500 }] :=
  C5_single_request_fixed_shape "Hello" (fun _ => .raise "x") (by decide)

/-- C6: the `/chat` route accepts only POST: dispatch sends a method to the
chat handler iff it is POST, and in particular a GET to `/chat` never invokes
the handler. -/
theorem C6_chat_route_only_post :
    (∀ method, dispatch "/chat" method = .chatHandler ↔ method = "POST") ∧
    dispatch "/chat" "GET" ≠ RouteTarget.chatHandler := by
  have hred : ∀ method, dispatch "/chat" method =
      if method = "POST" then .chatHandler else .methodNotAllowed := fun _ => rfl
  refine ⟨fun method => ?_, by decide⟩
  rw [hred]
  by_cases hm : method = "POST" <;> simp [hm]

/-- C8: an exception raised while extracting the reply from a successful
provider response — here the representable case, `choices[0]` on an empty
choices list raising `IndexError` — is caught by the same handler-level
`except` and returned as a 200 `"Error: ..."` reply. -/
theorem C8_extraction_failure_caught (s : String)
    (provider : ProviderRequest → ProviderResult)
    (hs : pyStrip s ≠ "")
    (hp : provider (mkProviderRequest (pyStrip s)) = .success { choices := [] }) :
    chat (some (.obj [("message", .str s)])) provider =
      { response := .reply ("Error: " ++ "list index out of range"),
        calls := [mkProviderRequest (pyStrip s)] } ∧
    httpStatus (chat (some (.obj [("message", .str s)])) provider).response = 200 := by
  rw [chat_obj_eq_chatCore,
    chatCore_nonempty _ _ provider (getStrippedMessage_singleton s) hs, hp]
  exact ⟨rfl, rfl⟩

/-- C8 witness: message `"hi"`, provider returning an empty choices list — the
reply is `"Error: list index out of range"` with status 200. -/
theorem C8_witness :
    chat (some (.obj [("message", .str "hi")]))
        (fun _ => .success { choices := [] }) =
      { response := .reply "Error: list index out of range",
        calls := [mkProviderRequest "hi"] } ∧
    httpStatus (chat (some (.obj [("message", .str "hi")]))
        (fun _ => .success { choices := [] })).response = 200 :=
  C8_extraction_failure_caught "hi" (fun _ => .success { choices := [] })
    (by decide) rfl

/-- C7 counterexample: on the same exception (carrying an HTTP body), a loop
attempt prints the `HTTP/body from exception:` diagnostic but the fallback
attempt does not — so the fallback does not have the same failure-diagnostic
behaviour as the loop attempts. -/
theorem C7_counterexample :
    Event.print "HTTP/body from exception: deets" ∈
      try_responses (fun _ => none) (fun _ => .raise excWithBody) "gpt-4o" ∧
    Event.print "HTTP/body from exception: deets" ∉
      try_chat_completion (fun msg => msg.content) (fun _ => .raise excWithBody)
        "gpt-3.5-turbo" := by
  decide

/-- C7 (amended): the probe script attempts one Responses-API call for each of
the four model identifiers in order, then exactly one additional
chat-completions call against `"gpt-3.5-turbo"`.  A failing loop attempt
prints the exception's type name, string form, the diagnostic-extraction lines
(embedded HTTP body/detail field and JSON-parseable argument payload, per
`diagExtract`) and a full stack trace; the failing fallback attempt prints
only the exception's type name, string form and a full stack trace. -/
theorem C7_probe_order_and_fallback_diagnostics
    (jsonLoads : String → Option String) (respOracle : String → RespOutcome)
    (reprMsg : ChoiceMessage → String) (chatOracle : String → ChatCallOutcome)
    (m : String) (eLoop eFall : ProbeExc)
    (hr : respOracle m = .raise eLoop)
    (hc : chatOracle "gpt-3.5-turbo" = .raise eFall) :
    (probeMain jsonLoads respOracle reprMsg chatOracle).filter Event.isCall =
      [.respCall (mkRespRequest "gpt-4o"),
       .respCall (mkRespRequest "gpt-4o-mini"),
       .respCall (mkRespRequest "gpt-3.5-turbo"),
       .respCall (mkRespRequest "gpt-4o-mini-tts"),
       .chatCall (mkProbeChatRequest "gpt-3.5-turbo")] ∧
    try_responses jsonLoads respOracle m =
      [.print ("\n--- Trying Responses API with model: " ++ m),
       .respCall (mkRespRequest m),
       .print ("Exception type: " ++ eLoop.typeName),
       .print ("Exception str: " ++ eLoop.strForm)] ++
      (diagExtract jsonLoads eLoop).map Event.print ++ [.traceback] ∧
    (∀ b, truthyStr (pyOr eLoop.http_body eLoop.body) = some b →
      Event.print ("HTTP/body from exception: " ++ b) ∈
        try_responses jsonLoads respOracle m) ∧
    try_chat_completion reprMsg chatOracle "gpt-3.5-turbo" =
      [.print ("\n--- Trying Chat Completions API with model: " ++ "gpt-3.5-turbo"),
       .chatCall (mkProbeChatRequest "gpt-3.5-turbo"),
       .print ("Exception type: " ++ eFall.typeName),
       .print ("Exception str: " ++ eFall.strForm),
       .traceback] := by
  have hloop : try_responses jsonLoads respOracle m =
      [.print ("\n--- Trying Responses API with model: " ++ m),
       .respCall (mkRespRequest m),
       .print ("Exception type: " ++ eLoop.typeName),
       .print ("Exception str: " ++ eLoop.strForm)] ++
      (diagExtract jsonLoads eLoop).map Event.print ++ [.traceback] := by
    unfold try_responses try_responsesWith
    rw [hr]
    simp
  refine ⟨probeMainWith_calls _ _ _ _, hloop, ?_, ?_⟩
  · intro b hb
    rw [hloop]
    unfold diagExtract
    rw [hb]
    simp
  · unfold try_chat_completion
    rw [hc]

/-- C7 witness: with every attempt raising the body-carrying exception, the
fallback's output ends at type name, string form and stack trace (no body
line). -/
theorem C7_witness :
    try_chat_completion (fun msg => msg.content) (fun _ => .raise excWithBody)
        "gpt-3.5-turbo" =
      [.print ("\n--- Trying Chat Completions API with model: " ++ "gpt-3.5-turbo"),
       .chatCall (mkProbeChatRequest "gpt-3.5-turbo"),
       .print ("Exception type: " ++ "APIError"),
       .print ("Exception str: " ++ "boom"),
       .traceback] :=
  (C7_probe_order_and_fallback_diagnostics (fun _ => none)
    (fun _ => .raise excWithBody) (fun msg => msg.content)
    (fun _ => .raise excWithBody) "gpt-4o" excWithBody excWithBody
    rfl rfl).2.2.2

/-- C10: whatever every oracle does — in particular when every attempt raises
— and whatever lines the nested diagnostic-extraction block manages to print
before failing (its failures are swallowed), the probe script still performs
all four Responses-API attempts in order, then the single chat-completions
fallback, and reaches its final print: no exception alters control flow. -/
theorem C10_all_probe_attempts_complete (diag : ProbeExc → List String)
    (respOracle : String → RespOutcome) (reprMsg : ChoiceMessage → String)
    (chatOracle : String → ChatCallOutcome) :
    (probeMainWith diag respOracle reprMsg chatOracle).filter Event.isCall =
      [.respCall (mkRespRequest "gpt-4o"),
       .respCall (mkRespRequest "gpt-4o-mini"),
       .respCall (mkRespRequest "gpt-3.5-turbo"),
       .respCall (mkRespRequest "gpt-4o-mini-tts"),
       .chatCall (mkProbeChatRequest "gpt-3.5-turbo")] ∧
    (probeMainWith diag respOracle reprMsg chatOracle).getLast? =
      some (.print "\nFinished tests.") :=
  ⟨probeMainWith_calls diag respOracle reprMsg chatOracle,
   probeMainWith_getLast diag respOracle reprMsg chatOracle⟩
